import Mathlib

/-!
Verification development for the neorail Qdrant retrieval service.

Shallow embedding of the relevant source functions:
- Ingest.py: select_strategy, build_points, upsert_in_batches, generate_embedding
- Ingest_openclip.py: generate_resolution, ingest_with_openclip
- openclip_embeddings.py: embed_text, embed_texts, embed_multimodal
- main.py: search_by_embedding, add_incident

Machine reals (Python floats) are modelled as real numbers; damage amounts
(compared only with order tests) are modelled as rationals. Fallible calls
(remote embedding APIs, the vector store client) are modelled as Option- or
Except-valued parameters: a none/error value stands for the call raising an
exception at that point.
-/

namespace Neorail

/-! ### Python string helpers: `s.upper()` and `needle in hay` -/
/-- Is the second character list an initial segment of the first
(Python startswith over explicit char lists). -/
def leadsWith : List Char → List Char → Bool
  | _, [] => true
  | [], _ :: _ => false
  | a :: as, b :: bs => a == b && leadsWith as bs

/-- Does the first character list contain the second as a contiguous
sub-sequence - the semantics of the Python expression needle in hay. -/
def hasSub : List Char → List Char → Bool
  | [], needle => needle.isEmpty
  | a :: t, needle => leadsWith (a :: t) needle || hasSub t needle

/-- Python membership test needle in hay for strings. -/
def strContains (hay needle : String) : Bool :=
  hasSub hay.data needle.data

/-- Python str.upper, character by character (ASCII narratives). -/
def pyUpper (s : String) : String := ⟨s.data.map Char.toUpper⟩

/-! ### Resolution strategies (the constant list in Ingest.py main and the
inlined list in Ingest_openclip.py generate_resolution) -/
/-- One canned resolution strategy dict: action code, detail text,
expected delay in minutes. -/
structure Strategy where
  action : String
  desc : String
  delay : Nat
  deriving DecidableEq, Repr

/-- Placeholder result for an out-of-range list access (never reached on the
concrete 4-element strategy lists). -/
def defaultStrategy : Strategy := ⟨"", "", 0⟩

/-- The strategies list built in Ingest.py main (lines 283-288). -/
def ingestStrategies : List Strategy :=
  [⟨"REVERSE_MANEUVER", "Initiated retrograde movement to nearest switch.", 45⟩,
   ⟨"REROUTE_FAST_TRACK", "Diverted following traffic to High-Speed Line B.", 10⟩,
   ⟨"SINGLE_LINE_WORKING", "Established bidirectional flow on remaining open track.", 25⟩,
   ⟨"BUS_BRIDGE", "Track impassable. Deployed emergency bus fleet.", 120⟩]

/-- The strategies list inlined in Ingest_openclip.py generate_resolution
(lines 131-152): same actions, details and delays. -/
def openclipStrategies : List Strategy :=
  [⟨"REVERSE_MANEUVER", "Initiated retrograde movement to nearest switch.", 45⟩,
   ⟨"REROUTE_FAST_TRACK", "Diverted following traffic to High-Speed Line B.", 10⟩,
   ⟨"SINGLE_LINE_WORKING", "Established bidirectional flow on remaining open track.", 25⟩,
   ⟨"BUS_BRIDGE", "Track impassable. Deployed emergency bus fleet.", 120⟩]

/-- Ingest.py select_strategy (lines 137-172): heuristic decision chain on the
upper-cased narrative and the damage amount. -/
def select_strategy (description : String) (damage : ℚ) (strategies : List Strategy) : Strategy :=
  let full_text := pyUpper description
  if damage > 100000 then strategies.getD 3 defaultStrategy
  else if strContains full_text "DERAILED" || strContains full_text "DERAIL" then
    strategies.getD 2 defaultStrategy
  else if strContains full_text "SWITCH" || strContains full_text "TURNOUT" then
    strategies.getD 0 defaultStrategy
  else if strContains full_text "COLLISION" || strContains full_text "STRUCK" then
    strategies.getD 2 defaultStrategy
  else if strContains full_text "SIGNAL" || strContains full_text "CROSSING" then
    strategies.getD 1 defaultStrategy
  else if strContains full_text "OBSTRUCTION" || strContains full_text "DEBRIS"
      || strContains full_text "OBJECT" then
    if damage > 50000 then strategies.getD 2 defaultStrategy else strategies.getD 1 defaultStrategy
  else if strContains full_text "FIRE" || strContains full_text "SMOKE" then
    strategies.getD 3 defaultStrategy
  else if strContains full_text "WEATHER" || strContains full_text "FLOOD"
      || strContains full_text "SNOW" then
    strategies.getD 1 defaultStrategy
  else if strContains full_text "MECHANICAL" || strContains full_text "BRAKE"
      || strContains full_text "ENGINE" then
    strategies.getD 0 defaultStrategy
  else if strContains full_text "TRESPASS" || strContains full_text "PERSON"
      || strContains full_text "PEDESTRIAN" then
    strategies.getD 2 defaultStrategy
  else if damage > 50000 then strategies.getD 2 defaultStrategy
  else if damage > 10000 then strategies.getD 1 defaultStrategy
  else strategies.getD 0 defaultStrategy

/-- The deterministic strategy choice inside Ingest_openclip.py
generate_resolution (lines 154-194): same chain over its inlined list. -/
def generate_resolution_sol (description : String) (damage : ℚ) : Strategy :=
  let full_text := pyUpper description
  if damage > 100000 then openclipStrategies.getD 3 defaultStrategy
  else if strContains full_text "DERAILED" || strContains full_text "DERAIL" then
    openclipStrategies.getD 2 defaultStrategy
  else if strContains full_text "SWITCH" || strContains full_text "TURNOUT" then
    openclipStrategies.getD 0 defaultStrategy
  else if strContains full_text "COLLISION" || strContains full_text "STRUCK" then
    openclipStrategies.getD 2 defaultStrategy
  else if strContains full_text "SIGNAL" || strContains full_text "CROSSING" then
    openclipStrategies.getD 1 defaultStrategy
  else if strContains full_text "OBSTRUCTION" || strContains full_text "DEBRIS"
      || strContains full_text "OBJECT" then
    if damage > 50000 then openclipStrategies.getD 2 defaultStrategy
    else openclipStrategies.getD 1 defaultStrategy
  else if strContains full_text "FIRE" || strContains full_text "SMOKE" then
    openclipStrategies.getD 3 defaultStrategy
  else if strContains full_text "WEATHER" || strContains full_text "FLOOD"
      || strContains full_text "SNOW" then
    openclipStrategies.getD 1 defaultStrategy
  else if strContains full_text "MECHANICAL" || strContains full_text "BRAKE"
      || strContains full_text "ENGINE" then
    openclipStrategies.getD 0 defaultStrategy
  else if strContains full_text "TRESPASS" || strContains full_text "PERSON"
      || strContains full_text "PEDESTRIAN" then
    openclipStrategies.getD 2 defaultStrategy
  else if damage > 50000 then openclipStrategies.getD 2 defaultStrategy
  else if damage > 10000 then openclipStrategies.getD 1 defaultStrategy
  else openclipStrategies.getD 0 defaultStrategy

/-- Full result dict of Ingest_openclip.py generate_resolution; the unseeded
random draw for times_used is passed in as an argument. -/
structure Resolution where
  resolution_action : String
  resolution_detail : String
  avg_delay_mins : Nat
  times_used : Nat
  deriving DecidableEq, Repr

/-- Ingest_openclip.py generate_resolution (lines 126-203): the weather
argument is accepted but never used by the function body. -/
def generate_resolution (description : String) (weather : String) (damage : ℚ)
    (timesUsed : Nat) : Resolution :=
  let sol := generate_resolution_sol description damage
  { resolution_action := sol.action
    resolution_detail := sol.desc
    avg_delay_mins := sol.delay
    times_used := timesUsed }

/-- Spec-side decision list, written from the words of spec rules 1-11 of
section 4.3: first match wins, case-insensitive substring tests realised by
upper-casing the narrative and testing upper-case needles. Returns the action
code of the selected ResolutionStrategy. -/
def spec_rule_action (narrative : String) (damage : ℚ) : String :=
  let n := pyUpper narrative
  if damage > 100000 then "BUS_BRIDGE"
  else if strContains n "DERAILED" || strContains n "DERAIL" then "SINGLE_LINE_WORKING"
  else if strContains n "SWITCH" || strContains n "TURNOUT" then "REVERSE_MANEUVER"
  else if strContains n "COLLISION" || strContains n "STRUCK" then "SINGLE_LINE_WORKING"
  else if strContains n "SIGNAL" || strContains n "CROSSING" then "REROUTE_FAST_TRACK"
  else if strContains n "OBSTRUCTION" || strContains n "DEBRIS" || strContains n "OBJECT" then
    if damage > 50000 then "SINGLE_LINE_WORKING" else "REROUTE_FAST_TRACK"
  else if strContains n "FIRE" || strContains n "SMOKE" then "BUS_BRIDGE"
  else if strContains n "WEATHER" || strContains n "FLOOD" || strContains n "SNOW" then
    "REROUTE_FAST_TRACK"
  else if strContains n "MECHANICAL" || strContains n "BRAKE" || strContains n "ENGINE" then
    "REVERSE_MANEUVER"
  else if strContains n "TRESPASS" || strContains n "PERSON" || strContains n "PEDESTRIAN" then
    "SINGLE_LINE_WORKING"
  else if damage > 50000 then "SINGLE_LINE_WORKING"
  else if damage > 10000 then "REROUTE_FAST_TRACK"
  else "REVERSE_MANEUVER"

/-! ### Vector arithmetic over real-number lists (numpy operations used by
openclip_embeddings.py embed_multimodal) -/
/-- Pointwise scalar multiple of a vector (numpy scalar * array). -/
def vscale (c : ℝ) (v : List ℝ) : List ℝ := v.map (fun x => c * x)

/-- Pointwise sum of two vectors (numpy array + array). -/
def vadd (u v : List ℝ) : List ℝ := List.zipWith (fun a b => a + b) u v

/-- Sum of a non-empty family of vectors, as numpy accumulates them. -/
def vsum : List (List ℝ) → List ℝ
  | [] => []
  | [v] => v
  | v :: w :: rest => vadd v (vsum (w :: rest))

/-- numpy.mean(vs, axis=0): pointwise arithmetic mean. -/
noncomputable def vavg (vs : List (List ℝ)) : List ℝ :=
  (vsum vs).map (fun x => x / (vs.length : ℝ))

/-- Sum of squared entries; the squared Euclidean norm. -/
def l2normSq (v : List ℝ) : ℝ := (v.map (fun x => x * x)).sum

/-- vector / numpy.linalg.norm(vector): divide each entry by the Euclidean
norm of the whole vector. -/
noncomputable def vnormalize (v : List ℝ) : List ℝ :=
  v.map (fun x => x / Real.sqrt (l2normSq v))

/-! ### openclip_embeddings.py: embed_text, embed_texts, embed_multimodal -/
/-- openclip_embeddings.py embed_text (lines 97-115), parameterized by the
raw CLIP text encoder: encode, then divide by the Euclidean norm. -/
noncomputable def embed_text (encode_text : String → List ℝ) (text : String) : List ℝ :=
  vnormalize (encode_text text)

/-- Ingest.py generate_embedding (lines 123-134): the Gemini API response
vector is returned unchanged, with no normalization applied anywhere. -/
def generate_embedding (api_embedding : String → List ℝ) (text : String) : List ℝ :=
  api_embedding text

/-- The image embeddings kept by embed_multimodal (lines 236-245): at most the
first 3 urls are attempted, a failed fetch or decode yields no vector, and a
falsy (empty) vector is also discarded by the Python truthiness test. -/
def successfulImageEmbeds (embed_image : String → Option (List ℝ))
    (image_urls : List String) : List (List ℝ) :=
  (image_urls.take 3).filterMap (fun u =>
    match embed_image u with
    | none => none
    | some v => if v.isEmpty then none else some v)

/-- openclip_embeddings.py embed_multimodal (lines 204-265), parameterized by
the module-level embed_text and embed_image_from_url it calls. -/
noncomputable def embed_multimodal (et : String → List ℝ)
    (embed_image : String → Option (List ℝ))
    (text : String) (image_urls : List String) (text_weight : ℝ) : List ℝ :=
  let text_emb := et text
  if image_urls.isEmpty then text_emb
  else
    let image_embeddings := successfulImageEmbeds embed_image image_urls
    if image_embeddings.isEmpty then text_emb
    else
      let avg_image_emb := vavg image_embeddings
      let image_weight := 1 - text_weight
      vnormalize (vadd (vscale text_weight text_emb) (vscale image_weight avg_image_emb))

/-! ### Ingestion pipelines (Ingest.py build_points, Ingest_openclip.py
ingest_with_openclip) -/
/-- EXPECTED_VECTOR_SIZE in Ingest.py (line 16). -/
def EXPECTED_VECTOR_SIZE : Nat := 768

/-- One prepared CSV row: the pandas index it carries, the concatenated
narrative, the weather field, and the parsed damage amount (none when the
ACCDMG cell is not numeric). -/
structure Row where
  idx : Nat
  full_description : String
  weather : String
  accdmg : Option ℚ
  deriving Repr

/-- A stored point: id, vector, and the payload field the claims inspect. -/
structure KPoint where
  id : Nat
  vector : List ℝ
  resolution_action : String

/-- Ingest.py line 180: the text handed to the embedding provider combines
the narrative and the weather field. -/
def ingest_text (r : Row) : String :=
  r.full_description ++ " | Weather: " ++ r.weather

/-- One iteration of the Ingest.py build_points loop (lines 178-217):
embedding failure or an unexpected vector length makes the row yield no
point; a non-numeric ACCDMG defaults to damage 0. -/
def build_point (embed : String → Option (List ℝ)) (strategies : List Strategy)
    (r : Row) : Option KPoint :=
  match embed (ingest_text r) with
  | none => none
  | some vector =>
    if vector.length ≠ EXPECTED_VECTOR_SIZE then none
    else some
      { id := r.idx
        vector := vector
        resolution_action :=
          (select_strategy r.full_description (r.accdmg.getD 0) strategies).action }

/-- Ingest.py build_points (lines 175-220): each row is tried independently,
failed rows are skipped, point ids are the pandas row indices. -/
def build_points (embed : String → Option (List ℝ)) (strategies : List Strategy)
    (rows : List Row) : List KPoint :=
  rows.filterMap (build_point embed strategies)

/-- Ingest_openclip.py line 215: only Full_Description is embedded. -/
def openclip_texts (rows : List Row) : List String :=
  rows.map (fun r => r.full_description)

/-- openclip_embeddings.py embed_texts as used by the batch ingestion: a
failure while embedding any one text raises out of the whole batched call,
so the call yields either every embedding or nothing. -/
def embed_texts (embed1 : String → Option (List ℝ)) : List String → Option (List (List ℝ))
  | [] => some []
  | t :: ts =>
    match embed1 t, embed_texts embed1 ts with
    | some v, some vs => some (v :: vs)
    | _, _ => none

/-- The point-building loop of ingest_with_openclip (lines 223-242):
enumerate assigns ids 0, 1, 2, ... in list order. -/
def openclip_points (i : Nat) : List Row → List (List ℝ) → List KPoint
  | r :: rows, v :: vs =>
    { id := i
      vector := v
      resolution_action :=
        (generate_resolution_sol r.full_description (r.accdmg.getD 0)).action }
      :: openclip_points (i + 1) rows vs
  | _, _ => []

/-- Ingest_openclip.py ingest_with_openclip (lines 206-251): all embeddings
are generated up front by one batched call; there is no per-row recovery. -/
def ingest_with_openclip (embed1 : String → Option (List ℝ))
    (rows : List Row) : Option (List KPoint) :=
  match embed_texts embed1 (openclip_texts rows) with
  | none => none
  | some embeddings => some (openclip_points 0 rows embeddings)

/-! ### main.py search_by_embedding and add_incident -/
/-- Request body of POST /search-by-embedding. -/
structure EmbeddingSearchRequest where
  embedding : List ℝ
  limit : Nat

/-- Response body: the list of formatted hits. -/
structure SearchResponse where
  results : List KPoint

/-- main.py search_by_embedding (lines 155-189), with the store client calls
passed in as Except-valued arguments: get_collection yields the declared
dimension or raises, query_points yields hits or raises; every raise is
caught by the except-clause, which answers with empty results. The Bool
records whether query_points was invoked. -/
def search_by_embedding (get_collection : Except Unit Nat)
    (query_points : List ℝ → Nat → Except Unit (List KPoint))
    (req : EmbeddingSearchRequest) : SearchResponse × Bool :=
  match get_collection with
  | .error _ => (⟨[]⟩, false)
  | .ok expected_dim =>
    if req.embedding.length ≠ expected_dim then (⟨[]⟩, false)
    else
      match query_points req.embedding req.limit with
      | .error _ => (⟨[]⟩, true)
      | .ok hits => (⟨hits⟩, true)

/-- Request body of POST /add-incident (the fields the claims inspect). -/
structure AddIncidentRequest where
  description : String
  resolution_action : String
  image_urls : List String

/-- Response body of POST /add-incident. -/
structure AddIncidentResponse where
  success : Bool
  point_id : Int

/-- main.py add_incident (lines 290-372). The collection is modelled as the
list of stored points, so points_count is its length. get_collection and the
upsert may raise (modelled by the Bool flags); the embedding calls may raise
(modelled by Option). Every raise is caught by the except-clause, which
answers success = false, point_id = -1; the upsert is the final fallible
step, so a caught raise leaves the store untouched. -/
def add_incident (provider_is_openclip : Bool) (get_collection_ok : Bool)
    (emb_mm : String → List String → Option (List ℝ))
    (emb_t : String → Option (List ℝ)) (upsert_ok : Bool)
    (store : List KPoint) (req : AddIncidentRequest) :
    AddIncidentResponse × List KPoint :=
  if provider_is_openclip = false then (⟨false, -1⟩, store)
  else if get_collection_ok = false then (⟨false, -1⟩, store)
  else
    let next_id := store.length
    match (if req.image_urls.length > 0 then emb_mm req.description req.image_urls
           else emb_t req.description) with
    | none => (⟨false, -1⟩, store)
    | some embedding =>
      if upsert_ok = false then (⟨false, -1⟩, store)
      else
        (⟨true, (next_id : Int)⟩,
         store ++ [{ id := next_id
                     vector := embedding
                     resolution_action := req.resolution_action }])

/-! ### Ingest.py upsert_in_batches -/
/-- The chunking performed by the range(0, total, batch_size) loop of
upsert_in_batches; a batch size of 0 is treated as 1 (Python would reject a
zero step before any write). -/
def chunk {α : Type} (bs : Nat) : List α → List (List α)
  | [] => []
  | a :: rest => (a :: rest.take (bs - 1)) :: chunk bs (rest.drop (bs - 1))
  termination_by l => l.length
  decreasing_by simp [List.length_drop]; omega

/-- Outcome of an upsert run: the points persisted in the store, how many
chunks were written, and whether the run raised. -/
structure UpsertResult where
  store : List KPoint
  chunksWritten : Nat
  failed : Bool

/-- The write loop of upsert_in_batches (lines 229-236): chunks are written
in order; the first failing chunk stops the loop and re-raises, leaving the
chunks already written persisted. ok i says whether writing chunk i succeeds. -/
def runChunks (ok : Nat → Bool) (store : List KPoint) (i : Nat) :
    List (List KPoint) → UpsertResult
  | [] => ⟨store, i, false⟩
  | c :: cs =>
    if ok i then runChunks ok (store ++ c) (i + 1) cs
    else ⟨store, i, true⟩

/-- Ingest.py upsert_in_batches (lines 223-238): early return when there is
nothing to write, otherwise the chunked write loop. -/
def upsert_in_batches (ok : Nat → Bool) (store : List KPoint)
    (points : List KPoint) (batch_size : Nat) : UpsertResult :=
  if points.isEmpty then ⟨store, 0, false⟩
  else runChunks ok store 0 (chunk batch_size points)

/-- An embedding function that raises on the narrative A and succeeds
elsewhere with a (wrong-sized) vector. -/
def badEmbed : String → Option (List ℝ) :=
  fun t => if t = "A" then none else some [1]

/-- Two rows, the first of which will fail to embed. -/
def rowA : Row := ⟨0, "A", "w", some 0⟩

/-- The second row, which embeds fine. -/
def rowB : Row := ⟨1, "B", "w", some 0⟩

/-- An embedding stub that always succeeds with a correctly sized vector. -/
def constEmbed : String → Option (List ℝ) :=
  fun _ => some (List.replicate EXPECTED_VECTOR_SIZE 0)

/-- Rows as build_points receives them after load_data dropped the row with
pandas index 1 (empty narrative): the surviving indices have a gap. -/
def gapRows : List Row := [⟨0, "a", "w", some 0⟩, ⟨2, "b", "w", some 0⟩]

/-- The request used by concrete witnesses of the service endpoints. -/
def reqW : AddIncidentRequest := ⟨"desc", "ACT", []⟩

/-- A concrete stored point for the upsert witness. -/
def ptW : KPoint := ⟨0, [0], "A"⟩

/-- C1: the resolution heuristic in both pipelines is the deterministic
decision list of spec rules 1-11, first match winning, with case-insensitive
substring tests; damage above 100000 always selects BUS_BRIDGE, and the
narrative "Train DERAILED due to FIRE" at damage 5000 selects
SINGLE_LINE_WORKING because the derailment rule precedes the fire rule. -/
theorem select_strategy_matches_spec_rules :
    (∀ d dmg, (select_strategy d dmg ingestStrategies).action = spec_rule_action d dmg) ∧
    (∀ d w dmg u, (generate_resolution d w dmg u).resolution_action = spec_rule_action d dmg) ∧
    (∀ d dmg, dmg > 100000 → (select_strategy d dmg ingestStrategies).action = "BUS_BRIDGE") ∧
    (select_strategy "Train DERAILED due to FIRE" 5000 ingestStrategies).action
      = "SINGLE_LINE_WORKING" := by
  refine ⟨?_, ?_, ?_, ?_⟩
  · intro d dmg
    dsimp only [select_strategy, spec_rule_action]
    simp only [apply_ite Strategy.action]
    rfl
  · intro d w dmg u
    dsimp only [generate_resolution, generate_resolution_sol, spec_rule_action]
    simp only [apply_ite Strategy.action]
    rfl
  · intro d dmg h
    dsimp only [select_strategy]
    rw [if_pos h]
    rfl
  · decide

/-- Witness for the hypothesis of the damage-dominant rule in C1. -/
theorem select_strategy_matches_spec_rules_witness :
    (select_strategy "Minor scuff" 150000 ingestStrategies).action = "BUS_BRIDGE" :=
  select_strategy_matches_spec_rules.2.2.1 "Minor scuff" 150000 (by norm_num)

lemma l2normSq_nonneg (v : List ℝ) : 0 ≤ l2normSq v := by
  induction v with
  | nil => simp [l2normSq]
  | cons a t ih =>
    simp only [l2normSq, List.map_cons, List.sum_cons]
    have : 0 ≤ a * a := mul_self_nonneg a
    have ih2 : 0 ≤ (t.map (fun x => x * x)).sum := ih
    linarith

lemma l2normSq_map_div (v : List ℝ) (s : ℝ) :
    l2normSq (v.map (fun x => x / s)) = l2normSq v / (s * s) := by
  induction v with
  | nil => simp [l2normSq]
  | cons a t ih =>
    simp only [l2normSq, List.map_cons, List.sum_cons] at ih ⊢
    rw [ih, div_mul_div_comm, div_add_div_same]

lemma vnormalize_of_unit (v : List ℝ) (h : l2normSq v = 1) : vnormalize v = v := by
  simp only [vnormalize, h, Real.sqrt_one, div_one]
  exact List.map_id' v

lemma l2normSq_vnormalize (v : List ℝ) (h : l2normSq v ≠ 0) :
    l2normSq (vnormalize v) = 1 := by
  simp only [vnormalize, l2normSq_map_div]
  rw [Real.mul_self_sqrt (l2normSq_nonneg v)]
  exact div_self h

lemma vscale_one (v : List ℝ) : vscale 1 v = v := by
  simp only [vscale, one_mul]
  exact List.map_id' v

lemma vadd_vscale_zero (u v : List ℝ) (h : v.length = u.length) :
    vadd u (vscale 0 v) = u := by
  induction u generalizing v with
  | nil => simp [vadd]
  | cons a t ih =>
    cases v with
    | nil => simp at h
    | cons b s =>
      simp only [List.length_cons, Nat.succ_inj] at h
      show (a + 0 * b) :: vadd t (vscale 0 s) = a :: t
      rw [zero_mul, add_zero, ih s h]

lemma vsum_length (vs : List (List ℝ)) (n : Nat) (hne : vs ≠ [])
    (h : ∀ v ∈ vs, v.length = n) : (vsum vs).length = n := by
  induction vs with
  | nil => exact absurd rfl hne
  | cons v rest ih =>
    cases rest with
    | nil => simpa using h v (List.mem_cons_self v [])
    | cons w more =>
      have hv : v.length = n := h v (List.mem_cons_self v _)
      have hrest : (vsum (w :: more)).length = n := by
        refine ih (by simp) ?_
        intro x hx
        exact h x (List.mem_cons_of_mem v hx)
      simp only [vsum, vadd, List.length_zipWith, hv, hrest, Nat.min_self]

lemma vavg_length (vs : List (List ℝ)) (n : Nat) (hne : vs ≠ [])
    (h : ∀ v ∈ vs, v.length = n) : (vavg vs).length = n := by
  simp only [vavg, List.length_map]
  exact vsum_length vs n hne h

lemma successfulImageEmbeds_all_failed (embed_image : String → Option (List ℝ))
    (image_urls : List String) (h : ∀ u ∈ image_urls, embed_image u = none) :
    successfulImageEmbeds embed_image image_urls = [] := by
  refine List.filterMap_eq_nil_iff.mpr ?_
  intro x hx
  rw [h x (List.take_subset 3 image_urls hx)]

/-- C4: fusing with an empty image list, or a list all of whose image
embeddings fail, returns exactly the text embedding, with no weighting or
re-normalization applied on the fallback path. -/
theorem embed_multimodal_fallback_is_text :
    (∀ et ei t w, embed_multimodal et ei t [] w = et t) ∧
    (∀ et ei t urls w, (∀ u ∈ urls, ei u = none) →
      embed_multimodal et ei t urls w = et t) := by
  constructor
  · intro et ei t w
    simp [embed_multimodal]
  · intro et ei t urls w h
    cases urls with
    | nil => simp [embed_multimodal]
    | cons u rest =>
      simp [embed_multimodal, successfulImageEmbeds_all_failed ei (u :: rest) h]

/-- Witness for C4: one failing image url, fallback returns the text vector. -/
theorem embed_multimodal_fallback_is_text_witness :
    embed_multimodal (fun _ => [(1 : ℝ)]) (fun _ => none) "t" ["u"] (1 / 2) = [(1 : ℝ)] :=
  embed_multimodal_fallback_is_text.2 (fun _ => [(1 : ℝ)]) (fun _ => none) "t" ["u"] (1 / 2)
    (fun u _ => rfl)

/-- C5: with a non-empty image list, at least one successfully embedded image,
and text_weight = 1.0, fusion returns the unit-norm text embedding unchanged:
the weighted sum eliminates the image contribution and dividing by the
Euclidean norm leaves the unit text vector fixed. -/
theorem embed_multimodal_full_text_weight (et : String → List ℝ)
    (ei : String → Option (List ℝ)) (t : String) (urls : List String) (w : ℝ)
    (hw : w = 1)
    (hsome : successfulImageEmbeds ei urls ≠ [])
    (hunit : l2normSq (et t) = 1)
    (hlen : ∀ v ∈ successfulImageEmbeds ei urls, v.length = (et t).length) :
    embed_multimodal et ei t urls w = et t := by
  subst hw
  have hurls : urls.isEmpty = false := by
    cases urls with
    | nil => exact absurd rfl hsome
    | cons a l => rfl
  have himgs : (successfulImageEmbeds ei urls).isEmpty = false := by
    cases hcase : successfulImageEmbeds ei urls with
    | nil => exact absurd hcase hsome
    | cons a l => rfl
  simp only [embed_multimodal, hurls, Bool.false_eq_true, if_false, himgs]
  have havg : (vavg (successfulImageEmbeds ei urls)).length = (et t).length :=
    vavg_length _ _ hsome hlen
  rw [vscale_one, sub_self, vadd_vscale_zero _ _ havg, vnormalize_of_unit _ hunit]

/-- Witness for C5 at a concrete unit text vector and one successful image. -/
theorem embed_multimodal_full_text_weight_witness :
    embed_multimodal (fun _ => [(1 : ℝ), 0]) (fun _ => some [0, 1]) "t" ["u"] 1
      = [(1 : ℝ), 0] := by
  refine embed_multimodal_full_text_weight (fun _ => [(1 : ℝ), 0])
    (fun _ => some [0, 1]) "t" ["u"] 1 rfl ?_ ?_ ?_
  · simp [successfulImageEmbeds]
  · norm_num [l2normSq]
  · intro v hv
    simp only [successfulImageEmbeds, List.take, List.filterMap] at hv
    simp at hv
    subst hv
    rfl

/-- C6 counterexample: the Gemini-based generate_embedding in Ingest.py
forwards the API response unchanged; at an API response [2] the returned
vector has squared norm 4, so it is not L2-normalized. -/
theorem generate_embedding_not_normalized :
    l2normSq (generate_embedding (fun _ => [(2 : ℝ)]) "any") ≠ 1 := by
  norm_num [generate_embedding, l2normSq]

/-- C6 amended: the OpenCLIP embed_text explicitly divides by the norm and so
returns a unit vector whenever the raw encoder output is nonzero, but the
Gemini generate_embedding used by Ingest.py returns the API vector unchanged,
applying no normalization of its own. -/
theorem embed_text_normalization_amended :
    (∀ enc t, l2normSq (enc t) ≠ 0 → l2normSq (embed_text enc t) = 1) ∧
    (∀ api t, generate_embedding api t = api t) := by
  constructor
  · intro enc t h
    exact l2normSq_vnormalize (enc t) h
  · intro api t
    rfl

/-- Witness for the amended C6 at a concrete nonzero encoder output. -/
theorem embed_text_normalization_amended_witness :
    l2normSq (embed_text (fun _ => [(2 : ℝ)]) "x") = 1 :=
  embed_text_normalization_amended.1 (fun _ => [(2 : ℝ)]) "x" (by norm_num [l2normSq])

/-! ### Claim theorems on the ingestion pipelines -/
lemma build_point_id (embed : String → Option (List ℝ)) (strategies : List Strategy)
    (r : Row) (pt : KPoint) (h : build_point embed strategies r = some pt) :
    pt.id = r.idx := by
  unfold build_point at h
  split at h
  · exact absurd h (by simp)
  · split at h
    · exact absurd h (by simp)
    · cases h
      rfl

lemma build_point_vector (embed : String → Option (List ℝ)) (strategies : List Strategy)
    (r : Row) (pt : KPoint) (h : build_point embed strategies r = some pt) :
    embed (ingest_text r) = some pt.vector := by
  unfold build_point at h
  split at h
  · exact absurd h (by simp)
  · rename_i v heq
    split at h
    · exact absurd h (by simp)
    · cases h
      exact heq

lemma embed_texts_zip (e : String → Option (List ℝ)) :
    ∀ (texts : List String) (embs : List (List ℝ)), embed_texts e texts = some embs →
      ∀ p ∈ List.zip texts embs, e p.1 = some p.2 := by
  intro texts
  induction texts with
  | nil =>
    intro embs h p hp
    cases h
    simp at hp
  | cons t ts ih =>
    intro embs h p hp
    cases he : e t with
    | none => rw [embed_texts, he] at h; exact absurd h (by simp)
    | some v =>
      cases hrest : embed_texts e ts with
      | none => rw [embed_texts, he, hrest] at h; exact absurd h (by simp)
      | some vs =>
        rw [embed_texts, he, hrest] at h
        cases h
        rcases (List.mem_cons).mp hp with hp | hp
        · rw [hp]; exact he
        · exact ih vs hrest p hp

lemma openclip_points_vector (e : String → Option (List ℝ)) :
    ∀ (rows : List Row) (embs : List (List ℝ)) (i : Nat),
      embed_texts e (openclip_texts rows) = some embs →
      ∀ p ∈ openclip_points i rows embs,
        ∃ r ∈ rows, e r.full_description = some p.vector := by
  intro rows
  induction rows with
  | nil =>
    intro embs i _ p hp
    cases embs <;> simp [openclip_points] at hp
  | cons r rest ih =>
    intro embs i h p hp
    cases he : e r.full_description with
    | none =>
      rw [openclip_texts, List.map_cons, embed_texts, he] at h
      exact absurd h (by simp)
    | some v =>
      cases hrest : embed_texts e (openclip_texts rest) with
      | none =>
        rw [openclip_texts, List.map_cons, embed_texts, he] at h
        rw [openclip_texts] at hrest
        rw [hrest] at h
        exact absurd h (by simp)
      | some vs =>
        rw [openclip_texts, List.map_cons, embed_texts, he] at h
        rw [openclip_texts] at hrest
        rw [hrest] at h
        cases h
        rcases (List.mem_cons).mp hp with hp | hp
        · refine ⟨r, List.mem_cons_self r rest, ?_⟩
          rw [hp] at *
          exact he
        · obtain ⟨r2, hr2, hv2⟩ := ih vs (i + 1) hrest p hp
          exact ⟨r2, List.mem_cons_of_mem r hr2, hv2⟩

/-- C7 counterexample: for the row with narrative D and weather W, the
OpenCLIP pipeline embeds just the narrative D, which differs from the
combined narrative-plus-weather text that the claim asserts. -/
theorem openclip_text_omits_weather :
    openclip_texts [⟨0, "D", "W", some 0⟩] = ["D"] ∧
      ("D" : String) ≠ ingest_text ⟨0, "D", "W", some 0⟩ := by
  exact ⟨rfl, by decide⟩

/-- C7 amended: Ingest.py embeds the narrative combined with the weather
field, but Ingest_openclip.py embeds the narrative alone: every point built
by build_points carries an embedding of the combined text of its source row,
while every point built by ingest_with_openclip carries an embedding of just
the Full_Description of some source row. -/
theorem embedded_text_per_pipeline :
    (∀ e s rows p, p ∈ build_points e s rows →
      ∃ r ∈ rows, e (r.full_description ++ " | Weather: " ++ r.weather) = some p.vector) ∧
    (∀ e rows pts, ingest_with_openclip e rows = some pts →
      ∀ p ∈ pts, ∃ r ∈ rows, e r.full_description = some p.vector) := by
  constructor
  · intro e s rows p hp
    obtain ⟨r, hr, hbuild⟩ := List.mem_filterMap.mp hp
    exact ⟨r, hr, build_point_vector e s r p hbuild⟩
  · intro e rows pts h p hp
    cases hemb : embed_texts e (openclip_texts rows) with
    | none => rw [ingest_with_openclip, hemb] at h; exact absurd h (by simp)
    | some embs =>
      rw [ingest_with_openclip, hemb] at h
      cases h
      exact openclip_points_vector e rows embs 0 hemb p hp

/-- Witness for the amended C7: a concrete one-row ingestion through
build_points embeds the combined narrative and weather text. -/
theorem embedded_text_per_pipeline_witness :
    ∃ r ∈ [(⟨0, "D", "W", some 0⟩ : Row)],
      (fun _ => some (List.replicate EXPECTED_VECTOR_SIZE (0 : ℝ)))
          (r.full_description ++ " | Weather: " ++ r.weather)
        = some (KPoint.vector ⟨0, List.replicate EXPECTED_VECTOR_SIZE (0 : ℝ),
            "REVERSE_MANEUVER"⟩) :=
  embedded_text_per_pipeline.1 (fun _ => some (List.replicate EXPECTED_VECTOR_SIZE (0 : ℝ)))
    ingestStrategies [⟨0, "D", "W", some 0⟩]
    ⟨0, List.replicate EXPECTED_VECTOR_SIZE (0 : ℝ), "REVERSE_MANEUVER"⟩
    (by simp [build_points, build_point, List.filterMap_cons, ingest_text]; rfl)

lemma embed_texts_none (e : String → Option (List ℝ)) :
    ∀ texts : List String, (∃ t ∈ texts, e t = none) → embed_texts e texts = none := by
  intro texts
  induction texts with
  | nil => rintro ⟨t, ht, _⟩; simp at ht
  | cons a ts ih =>
    rintro ⟨t, ht, hnone⟩
    rcases (List.mem_cons).mp ht with hh | hh
    · have ha : e a = none := hh ▸ hnone
      rw [embed_texts, ha]
    · rw [embed_texts, ih ⟨t, hh, hnone⟩]
      cases e a <;> rfl

/-- C9 counterexample: in the OpenCLIP pipeline an embedding failure on the
first row aborts the whole run (no points at all are produced), instead of
skipping only that row and processing the rest. -/
theorem openclip_row_failure_aborts_run :
    ingest_with_openclip badEmbed [rowA, rowB] = none := rfl

/-- C9 amended: per-row failure tolerance holds for Ingest.py build_points,
whose rows are tried independently (a failing row only drops its own point),
but not for Ingest_openclip.py ingest_with_openclip, where one failing text
in the batched embedding call makes the whole run raise. -/
theorem per_row_failure_isolation :
    (∀ e s xs ys, build_points e s (xs ++ ys) = build_points e s xs ++ build_points e s ys) ∧
    (∀ e s r rows, build_point e s r = none →
      build_points e s (r :: rows) = build_points e s rows) ∧
    (∀ e s r rows pt, build_point e s r = some pt →
      build_points e s (r :: rows) = pt :: build_points e s rows) ∧
    (∀ e rows, (∃ t ∈ openclip_texts rows, e t = none) →
      ingest_with_openclip e rows = none) := by
  refine ⟨?_, ?_, ?_, ?_⟩
  · intro e s xs ys
    exact List.filterMap_append xs ys (build_point e s)
  · intro e s r rows h
    simp [build_points, List.filterMap_cons, h]
  · intro e s r rows pt h
    simp [build_points, List.filterMap_cons, h]
  · intro e rows h
    rw [ingest_with_openclip, embed_texts_none e (openclip_texts rows) h]

/-- Witness for the amended C9: the failing first row is skipped by
build_points while the remaining row is still processed. -/
theorem per_row_failure_isolation_witness :
    build_points badEmbed ingestStrategies (rowA :: [rowB])
      = build_points badEmbed ingestStrategies [rowB] :=
  per_row_failure_isolation.2.1 badEmbed ingestStrategies rowA [rowB] rfl

/-- C2 counterexample: an Ingest.py run over rows whose pandas indices have a
gap writes points with ids 0 and 2 - not consecutive ids starting at 0. -/
theorem build_points_ids_not_consecutive :
    ¬ ((build_points constEmbed ingestStrategies gapRows).map (fun p => p.id)
        = List.range (build_points constEmbed ingestStrategies gapRows).length) := by
  have h : (build_points constEmbed ingestStrategies gapRows).map (fun p => p.id)
      = [0, 2] := by
    simp [build_points, build_point, constEmbed, gapRows, List.filterMap_cons]
  have hlen : (build_points constEmbed ingestStrategies gapRows).length = 2 := by
    have := congrArg List.length h
    simpa using this
  rw [h, hlen]
  decide

lemma openclip_points_ids :
    ∀ (rows : List Row) (embs : List (List ℝ)) (i : Nat),
      (openclip_points i rows embs).map (fun p => p.id)
        = List.range' i (openclip_points i rows embs).length := by
  intro rows
  induction rows with
  | nil => intro embs i; cases embs <;> rfl
  | cons r rest ih =>
    intro embs i
    cases embs with
    | nil => rfl
    | cons v vs =>
      simp only [openclip_points, List.map_cons, List.length_cons, List.range'_succ]
      rw [ih vs (i + 1)]

lemma build_points_ids_sublist (e : String → Option (List ℝ)) (s : List Strategy) :
    ∀ rows : List Row,
      ((build_points e s rows).map (fun p => p.id)).Sublist
        (rows.map (fun r => r.idx)) := by
  intro rows
  induction rows with
  | nil => simp [build_points]
  | cons r rest ih =>
    cases hb : build_point e s r with
    | none =>
      simp only [build_points, List.filterMap_cons, hb, List.map_cons]
      exact List.Sublist.cons r.idx ih
    | some pt =>
      simp only [build_points, List.filterMap_cons, hb, List.map_cons,
        build_point_id e s r pt hb]
      exact List.Sublist.cons₂ r.idx ih

/-- Case analysis of the add_incident model, shared by several theorems:
every failing path answers success = false, point_id = -1 and leaves the
store untouched; the single successful path answers the current point count
as the new id and appends exactly one point with that id. -/
lemma add_incident_cases (p g : Bool) (emm : String → List String → Option (List ℝ))
    (emt : String → Option (List ℝ)) (u : Bool) (store : List KPoint)
    (req : AddIncidentRequest) :
    ((add_incident p g emm emt u store req).1.success = false ∧
      (add_incident p g emm emt u store req).1.point_id = -1 ∧
      (add_incident p g emm emt u store req).2 = store) ∨
    ((add_incident p g emm emt u store req).1.success = true ∧
      (add_incident p g emm emt u store req).1.point_id = (store.length : Int) ∧
      ∃ v, (add_incident p g emm emt u store req).2
        = store ++ [⟨store.length, v, req.resolution_action⟩]) := by
  unfold add_incident
  cases p with
  | false => left; exact ⟨rfl, rfl, rfl⟩
  | true =>
    cases g with
    | false => left; exact ⟨rfl, rfl, rfl⟩
    | true =>
      simp only [Bool.true_eq_false, if_false]
      cases hemb : (if req.image_urls.length > 0 then emm req.description req.image_urls
          else emt req.description) with
      | none => left; exact ⟨rfl, rfl, rfl⟩
      | some v =>
        cases u with
        | false => left; exact ⟨rfl, rfl, rfl⟩
        | true => right; exact ⟨rfl, rfl, v, rfl⟩

/-- C2 amended: ids are non-negative; the OpenCLIP pipeline assigns
consecutive ids 0..n-1 and the add-incident append assigns next id = current
point count (two sequential appends to an empty collection get 0 then 1);
but Ingest.py build_points uses the pandas row index as the point id, so its
ids are merely a subsequence of the source indices - consecutive only when
no row was dropped or skipped. -/
theorem point_id_assignment :
    (∀ e rows pts, ingest_with_openclip e rows = some pts →
      pts.map (fun p => p.id) = List.range pts.length) ∧
    (∀ e s rows, ((build_points e s rows).map (fun p => p.id)).Sublist
      (rows.map (fun r => r.idx))) ∧
    (∀ emm emt r1 r2,
      (add_incident true true emm emt true [] r1).1.success = true →
      (add_incident true true emm emt true
          ((add_incident true true emm emt true [] r1).2) r2).1.success = true →
      (add_incident true true emm emt true [] r1).1.point_id = 0 ∧
      (add_incident true true emm emt true
          ((add_incident true true emm emt true [] r1).2) r2).1.point_id = 1) := by
  refine ⟨?_, ?_, ?_⟩
  · intro e rows pts h
    cases hemb : embed_texts e (openclip_texts rows) with
    | none => rw [ingest_with_openclip, hemb] at h; exact absurd h (by simp)
    | some embs =>
      rw [ingest_with_openclip, hemb] at h
      cases h
      rw [openclip_points_ids rows embs 0, List.range_eq_range']
  · intro e s rows
    exact build_points_ids_sublist e s rows
  · intro emm emt r1 r2 h1 h2
    rcases add_incident_cases true true emm emt true [] r1 with
      ⟨hf, _, _⟩ | ⟨_, hid1, v1, hst1⟩
    · rw [h1] at hf
      exact absurd hf (by simp)
    · refine ⟨by simpa using hid1, ?_⟩
      rcases add_incident_cases true true emm emt true
          ((add_incident true true emm emt true [] r1).2) r2 with
        ⟨hf2, _, _⟩ | ⟨_, hid2, v2, hst2⟩
      · rw [h2] at hf2
        exact absurd hf2 (by simp)
      · rw [hst1] at hid2 ⊢
        simpa using hid2

/-- Witness for the amended C2: two concrete appends to an empty collection
receive ids 0 then 1. -/
theorem point_id_assignment_witness :
    (add_incident true true (fun _ _ => none) (fun _ => some [1]) true [] reqW).1.point_id = 0 ∧
    (add_incident true true (fun _ _ => none) (fun _ => some [1]) true
        ((add_incident true true (fun _ _ => none) (fun _ => some [1]) true [] reqW).2)
        reqW).1.point_id = 1 :=
  point_id_assignment.2.2 (fun _ _ => none) (fun _ => some [1]) reqW reqW rfl rfl

/-- C10: the add-incident handler is total over its modelled failure points:
every internal failure (wrong provider, id lookup, embedding, upsert)
answers success = false with point_id = -1 and leaves the collection
untouched, and the only success path appends exactly one point carrying the
previous point count as its id. -/
theorem add_incident_soft_fail (p g : Bool)
    (emm : String → List String → Option (List ℝ)) (emt : String → Option (List ℝ))
    (u : Bool) (store : List KPoint) (req : AddIncidentRequest) :
    ((add_incident p g emm emt u store req).1.success = false →
      (add_incident p g emm emt u store req).1.point_id = -1 ∧
      (add_incident p g emm emt u store req).2 = store) ∧
    ((add_incident p g emm emt u store req).1.success = true →
      (add_incident p g emm emt u store req).1.point_id = (store.length : Int) ∧
      ∃ v, (add_incident p g emm emt u store req).2
        = store ++ [⟨store.length, v, req.resolution_action⟩]) := by
  rcases add_incident_cases p g emm emt u store req with
    ⟨hf, hid, hst⟩ | ⟨ht, hid, v, hst⟩
  · constructor
    · intro _
      exact ⟨hid, hst⟩
    · intro h
      rw [h] at hf
      exact absurd hf (by simp)
  · constructor
    · intro h
      rw [h] at ht
      exact absurd ht (by simp)
    · intro _
      exact ⟨hid, v, hst⟩

/-- Witness for C10: with a non-OpenCLIP provider the handler fails softly,
reporting point_id -1 and leaving the empty collection empty. -/
theorem add_incident_soft_fail_witness :
    (add_incident false true (fun _ _ => none) (fun _ => none) true [] reqW).1.point_id = -1 ∧
    (add_incident false true (fun _ _ => none) (fun _ => none) true [] reqW).2 = [] :=
  (add_incident_soft_fail false true (fun _ _ => none) (fun _ => none) true [] reqW).1 rfl

/-- C3: a pre-computed-embedding request whose vector length differs from the
collection dimension is answered with empty results and the search is never
attempted; and for every input the handler returns a response - either empty
results or the formatted hits of a successful store query - so no exception
escapes to the caller. -/
theorem search_by_embedding_dimension_guard :
    (∀ qp req d, req.embedding.length ≠ d →
      search_by_embedding (Except.ok d) qp req = (⟨[]⟩, false)) ∧
    (∀ gc qp req, (search_by_embedding gc qp req).1.results = [] ∨
      ∃ hits, qp req.embedding req.limit = Except.ok hits ∧
        search_by_embedding gc qp req = (⟨hits⟩, true)) := by
  constructor
  · intro qp req d h
    simp only [search_by_embedding, ne_eq, h, not_false_eq_true, if_true]
  · intro gc qp req
    cases gc with
    | error e =>
      left
      rfl
    | ok d =>
      by_cases h : req.embedding.length = d
      · cases hq : qp req.embedding req.limit with
        | error e =>
          left
          simp [search_by_embedding, h, hq]
        | ok hits =>
          right
          exact ⟨hits, rfl, by simp [search_by_embedding, h, hq]⟩
      · left
        simp [search_by_embedding, h]

/-- Witness for C3: a 2-entry vector against a 3-dimensional collection is
answered with empty results, search unattempted. -/
theorem search_by_embedding_dimension_guard_witness :
    search_by_embedding (Except.ok 3) (fun _ _ => Except.ok []) ⟨[0, 0], 3⟩
      = (⟨[]⟩, false) :=
  search_by_embedding_dimension_guard.1 (fun _ _ => Except.ok []) ⟨[0, 0], 3⟩ 3 (by simp)

lemma runChunks_spec (ok : Nat → Bool) :
    ∀ (cs : List (List KPoint)) (k i : Nat) (store : List KPoint),
      (∀ j, j < k → ok (i + j) = true) → ok (i + k) = false → k < cs.length →
      runChunks ok store i cs = ⟨store ++ (cs.take k).flatten, i + k, true⟩ := by
  intro cs
  induction cs with
  | nil =>
    intro k i store _ _ hk
    simp at hk
  | cons c rest ih =>
    intro k i store hbefore hfail hk
    cases k with
    | zero =>
      simp only [Nat.add_zero] at hfail
      rw [runChunks, if_neg (by simp [hfail])]
      simp
    | succ m =>
      have h0 : ok i = true := by
        have := hbefore 0 (Nat.succ_pos m)
        simpa using this
      have hb : ∀ j, j < m → ok (i + 1 + j) = true := by
        intro j hj
        have hj2 := hbefore (j + 1) (by omega)
        have heq : i + (j + 1) = i + 1 + j := by omega
        rwa [heq] at hj2
      have hf : ok (i + 1 + m) = false := by
        have heq : i + (m + 1) = i + 1 + m := by omega
        rwa [heq] at hfail
      have hk2 : m < rest.length := by
        simp only [List.length_cons] at hk
        omega
      rw [runChunks, if_pos (by simp [h0]), ih m (i + 1) (store ++ c) hb hf hk2]
      have hflat : store ++ c ++ (rest.take m).flatten
          = store ++ ((c :: rest).take (m + 1)).flatten := by
        rw [List.take_succ_cons, List.flatten_cons, List.append_assoc]
      have hi : i + 1 + m = i + (m + 1) := by omega
      rw [hflat, hi]

/-- C8: if writing chunk k of a batched upsert fails, the run stops there and
reports failure, the chunks written before k stay persisted, and no chunk
after k is attempted. -/
theorem upsert_batch_failure_aborts (ok : Nat → Bool) (store0 points : List KPoint)
    (bs k : Nat) (hbefore : ∀ j, j < k → ok j = true) (hfail : ok k = false)
    (hk : k < (chunk bs points).length) :
    upsert_in_batches ok store0 points bs
      = ⟨store0 ++ ((chunk bs points).take k).flatten, k, true⟩ := by
  have hne : points.isEmpty = false := by
    cases points with
    | nil => simp [chunk] at hk
    | cons a l => rfl
  rw [upsert_in_batches, if_neg (by simp [hne])]
  have := runChunks_spec ok (chunk bs points) k 0 store0
    (by intro j hj; simpa using hbefore j hj) (by simpa using hfail) hk
  simpa using this

/-- Witness for C8: three points in chunks of one, where writing the second
chunk fails: the first chunk stays persisted, one chunk was written, and the
run reports failure. -/
theorem upsert_batch_failure_aborts_witness :
    upsert_in_batches (fun i => decide (i = 0)) [] [ptW, ptW, ptW] 1
      = ⟨[] ++ ((chunk 1 [ptW, ptW, ptW]).take 1).flatten, 1, true⟩ :=
  upsert_batch_failure_aborts (fun i => decide (i = 0)) [] [ptW, ptW, ptW] 1 1
    (by
      intro j hj
      have hj0 : j = 0 := by omega
      subst hj0
      rfl)
    (by rfl)
    (by simp [chunk])

end Neorail

